import Mathlib

/-!
Shallow embedding of the secure task-trigger protocol of
danielkellyio/nuxt-scheduled-tasks-example.

The embedded code:
* `server/tasks/example/record.ts` — the `defineTask` registration
  (`example:record`) and the secured trigger endpoint
  (`defineEventHandler`), modelled as pure functions over an explicit
  endpoint state (key-value storage plus console log).
* `netlify/functions/example-task.mts` and its sibling variant — the
  externally scheduled timer trigger, modelled as a function of the
  outcome of the single `$fetch` call it performs.

Machine time (`Date.now()`) is passed in explicitly as a `Nat` of epoch
milliseconds; JavaScript falsiness of the configured secret
(`undefined` or the empty string) is modelled by `Option String` with
the empty string handled separately.
-/

/-- The JSON body of a trigger request: `{ secret: ... }`.
The field may be absent (`none`) since `readBody` imposes no schema. -/
structure TriggerRequest where
  secret : Option String
deriving DecidableEq, Repr

/-- The successful response object built by the endpoint:
`{ success, timestamp, message }`. -/
structure TaskResult where
  success : Bool
  timestamp : Nat
  message : String
deriving DecidableEq, Repr

/-- Outcome of one endpoint invocation: either the returned JSON object
or the error thrown via `createError({ statusCode, statusMessage })`. -/
inductive EndpointResponse where
  | ok (result : TaskResult)
  | error (statusCode : Nat) (statusMessage : String)
deriving DecidableEq, Repr

/-- Whether the endpoint returned normally (no thrown error). -/
def EndpointResponse.isOk : EndpointResponse → Bool
  | .ok _ => true
  | .error _ _ => false

/-- The text carried by the response: the success message or the error
status message. -/
def EndpointResponse.text : EndpointResponse → String
  | .ok r => r.message
  | .error _ m => m

/-- The `example:record` namespace of the key-value storage
(`useStorage("example:record")`), as an association list. -/
def Storage := List (String × Nat)
deriving DecidableEq, Repr

/-- `storage.setItem(key, value)`: write `value` under `key`,
overwriting any previous entry for that key. -/
def Storage.setItem (s : Storage) (k : String) (v : Nat) : Storage :=
  (k, v) :: (List.filter (fun e => e.1 ≠ k) s)

/-- Observable state of one endpoint process: the `example:record`
storage namespace and the console log (a list of emitted lines). -/
structure EndpointState where
  storage : Storage
  log : List String
deriving DecidableEq, Repr

/-- The log line `console.log("Running example record task: ", now)`
emitted by the task work. -/
def taskWorkLine (now : Nat) : String :=
  "Running example record task: " ++ toString now

/-- The task work inlined in the endpoint handler (record.ts, lines
34-46): capture `now`, log the execution line, write `now` under key
`String(now)` into the `example:record` storage, and build the
response object. -/
def endpointWork (now : Nat) (st : EndpointState) :
    TaskResult × EndpointState :=
  ({ success := true
     timestamp := now
     message := "Task completed successfully" },
   { storage := Storage.setItem st.storage (toString now) now
     log := st.log ++ [taskWorkLine now] })

/-- The secured trigger endpoint (record.ts `defineEventHandler`):
reject with 500 when the configured secret is falsy (`undefined` or
`""`), with 401 when the body secret differs from it, and otherwise
perform the task work and return the success object.  `taskSecret` is
`useRuntimeConfig().taskSecret`; `now` is the `Date.now()` of this
request. -/
def eventHandler (taskSecret : Option String) (req : TriggerRequest)
    (now : Nat) (st : EndpointState) : EndpointResponse × EndpointState :=
  match taskSecret with
  | none => (.error 500 "Secret must be set", st)
  | some secretKey =>
    if secretKey = "" then
      (.error 500 "Secret must be set", st)
    else if req.secret ≠ some secretKey then
      (.error 401 "Unauthorized", st)
    else
      let r := endpointWork now st
      (.ok r.1, r.2)

/-- Spec-side predicate: the shared secret is configured non-empty and
the request body secret equals it exactly. -/
def secretAccepted (taskSecret : Option String) (req : TriggerRequest) : Bool :=
  match taskSecret with
  | none => false
  | some k => decide (k ≠ "") && decide (req.secret = some k)

/-- Classification of a request by the endpoint's secret check: the
configured secret is falsy, or it is set but mismatched, or it is set
and matched. -/
inductive OutcomeClass where
  | unconfigured
  | unauthorized
  | accepted
deriving DecidableEq, Repr

/-- The class the endpoint assigns to a request, read off the two
guards of the handler. -/
def outcomeClass (taskSecret : Option String) (req : TriggerRequest) :
    OutcomeClass :=
  match taskSecret with
  | none => .unconfigured
  | some k =>
    if k = "" then .unconfigured
    else if req.secret ≠ some k then .unauthorized
    else .accepted

/-!
The `example:record` task registration (record.ts, lines 1-13).  Its
`run` logs the same execution line, writes the timestamp into the same
storage namespace (`storage.set(now, now)`; the numeric key is
stringified at the storage interface), and returns the plain object
`{ result: "Success" }`.  Returned objects are compared across the two
callers through a small JSON-value encoding.
-/

/-- A JSON scalar value, enough to encode the returned objects. -/
inductive JVal where
  | bool (b : Bool)
  | num (n : Nat)
  | str (s : String)
deriving DecidableEq, Repr

/-- A JSON object: field names paired with scalar values. -/
abbrev JObj := List (String × JVal)

/-- The JSON object the endpoint's success branch returns. -/
def TaskResult.toJObj (r : TaskResult) : JObj :=
  [("success", .bool r.success), ("timestamp", .num r.timestamp),
   ("message", .str r.message)]

/-- Whether an object is Task-Result-shaped: it has `success`,
`timestamp` and `message` fields. -/
def isTaskResultShaped (o : JObj) : Bool :=
  (List.lookup "success" o).isSome && (List.lookup "timestamp" o).isSome &&
    (List.lookup "message" o).isSome

/-- The `run` of the `example:record` task registration: log the
execution line, write the timestamp into the `example:record` storage,
and return `{ result: "Success" }`. -/
def taskRun (now : Nat) (st : EndpointState) : JObj × EndpointState :=
  ([("result", .str "Success")],
   { storage := Storage.setItem st.storage (toString now) now
     log := st.log ++ [taskWorkLine now] })

/-!
The external timer trigger.  Two variants exist in the source: one
that checks the response's `success` flag and throws
`new Error("Task failed", { cause: response })` when it is false
(the unnamed sibling of example-task.mts), and
`netlify/functions/example-task.mts` itself, which logs completion
without checking.  Both wrap the `$fetch` call in try/catch and log
caught errors with `console.error("Task failed:", ...)`.

The single `$fetch` call is modelled by its outcome: a parsed 2xx
response body, a thrown HTTP error (`$fetch` throws on non-2xx), or a
thrown transport error.
-/

/-- Outcome of the trigger's `$fetch` call. -/
inductive FetchOutcome where
  | success (body : TaskResult)
  | httpError (status : Nat) (statusMessage : String)
  | transportError (msg : String)
deriving DecidableEq, Repr

/-- A JavaScript error value as thrown inside the trigger's try block:
the error `$fetch` throws on a non-2xx response, a transport-level
error, or the trigger's own `new Error("Task failed", { cause })`. -/
inductive JsError where
  | fetchHttp (status : Nat) (statusMessage : String)
  | transport (msg : String)
  | taskFailed (cause : TaskResult)
deriving DecidableEq, Repr

/-- A console line emitted by the timer trigger. -/
inductive LogEntry where
  | triggered (nextRun : String)
  | completed (response : TaskResult)
  | taskFailedErr (cause : JsError)
deriving DecidableEq, Repr

/-- The try block of the checking trigger variant: await the fetch,
throw on a response whose `success` is false, otherwise log
completion.  A thrown value is the `Except.error`. -/
def checkedTryBlock (fetch : FetchOutcome) :
    Except JsError (List LogEntry) :=
  match fetch with
  | .success resp =>
    if resp.success = false then .error (.taskFailed resp)
    else .ok [.completed resp]
  | .httpError s m => .error (.fetchHttp s m)
  | .transportError m => .error (.transport m)

/-- The try block of example-task.mts: await the fetch and log
completion, with no check of the response's `success` field. -/
def uncheckedTryBlock (fetch : FetchOutcome) :
    Except JsError (List LogEntry) :=
  match fetch with
  | .success resp => .ok [.completed resp]
  | .httpError s m => .error (.fetchHttp s m)
  | .transportError m => .error (.transport m)

/-- The checking trigger variant: log the trigger line, run the try
block, and convert any thrown error into the caught
`console.error("Task failed:", { cause: error })` line.  The result is
the function's own outcome: `Except.error` would be an uncaught
exception. -/
def scheduledChecked (nextRun : String) (fetch : FetchOutcome) :
    Except JsError (List LogEntry) :=
  match checkedTryBlock fetch with
  | .ok logs => .ok (LogEntry.triggered nextRun :: logs)
  | .error e => .ok [LogEntry.triggered nextRun, LogEntry.taskFailedErr e]

/-- The example-task.mts trigger: same shape, with the non-checking
try block and the caught `console.error("Task failed:", error)`. -/
def scheduledUnchecked (nextRun : String) (fetch : FetchOutcome) :
    Except JsError (List LogEntry) :=
  match uncheckedTryBlock fetch with
  | .ok logs => .ok (LogEntry.triggered nextRun :: logs)
  | .error e => .ok [LogEntry.triggered nextRun, LogEntry.taskFailedErr e]

/-- Whether a trigger invocation completed without an uncaught
exception. -/
def completesNormally : Except JsError (List LogEntry) → Bool
  | .ok _ => true
  | .error _ => false

/-- Spec-side classifier: the failure, if any, that an invocation with
this fetch outcome represents (a response without `success: true`, or
a thrown fetch error). -/
def invocationFailure : FetchOutcome → Option JsError
  | .success resp =>
    if resp.success = false then some (.taskFailed resp) else none
  | .httpError s m => some (.fetchHttp s m)
  | .transportError m => some (.transport m)

/-- The timestamp returned by the endpoint, when it returned one. -/
def EndpointResponse.timestampOut : EndpointResponse → Option Nat
  | .ok r => some r.timestamp
  | .error _ _ => none

/-- The console lines of a normally completed trigger invocation. -/
def triggerLogs : Except JsError (List LogEntry) → List LogEntry
  | .ok logs => logs
  | .error _ => []

/-- The response and state the endpoint produces for each outcome
class; the secrets themselves do not occur. -/
def responseOfClass : OutcomeClass → Nat → EndpointState →
    EndpointResponse × EndpointState
  | .unconfigured, _, st => (.error 500 "Secret must be set", st)
  | .unauthorized, _, st => (.error 401 "Unauthorized", st)
  | .accepted, now, st => (.ok (endpointWork now st).1, (endpointWork now st).2)

/-- Helper: on an accepted request the handler equals the success
response paired with the once-updated state. -/
lemma eventHandler_accepted_eq (k : String) (req : TriggerRequest)
    (now : Nat) (st : EndpointState) (hk : k ≠ "")
    (hs : req.secret = some k) :
    eventHandler (some k) req now st =
      (.ok { success := true, timestamp := now,
             message := "Task completed successfully" },
       { storage := Storage.setItem st.storage (toString now) now
         log := st.log ++ [taskWorkLine now] }) := by
  simp [eventHandler, hk, hs, endpointWork]

/-- Helper: the handler is a function of the outcome class, the clock
and the prior state alone. -/
lemma eventHandler_classifies (cfg : Option String) (req : TriggerRequest)
    (now : Nat) (st : EndpointState) :
    eventHandler cfg req now st =
      responseOfClass (outcomeClass cfg req) now st := by
  cases cfg with
  | none => rfl
  | some k =>
    by_cases hk : k = "" <;> by_cases hs : req.secret = some k <;>
      simp [eventHandler, outcomeClass, responseOfClass, hk, hs]

/-- C1: the endpoint performs the task work (and only then returns
normally) exactly when the configured shared secret is non-empty and
the request body's secret equals it; on every other request it
terminates with an error and the state — storage and log — is
untouched. -/
theorem c1_work_iff_secret_accepted (cfg : Option String)
    (req : TriggerRequest) (now : Nat) (st : EndpointState) :
    ((eventHandler cfg req now st).1.isOk = secretAccepted cfg req) ∧
      ((eventHandler cfg req now st).2 =
        if secretAccepted cfg req = true then (endpointWork now st).2
        else st) := by
  cases cfg with
  | none => simp [eventHandler, secretAccepted, EndpointResponse.isOk]
  | some k =>
    by_cases hk : k = "" <;> by_cases hs : req.secret = some k <;>
      simp [eventHandler, secretAccepted, EndpointResponse.isOk, hk, hs]

/-- C2: when the configured shared secret is falsy (undefined or the
empty string), every request gets the 500 error "Secret must be set"
and the task work is never performed: storage and log are unchanged. -/
theorem c2_unconfigured_500 (cfg : Option String) (req : TriggerRequest)
    (now : Nat) (st : EndpointState)
    (h : cfg = none ∨ cfg = some "") :
    eventHandler cfg req now st = (.error 500 "Secret must be set", st) := by
  rcases h with h | h <;> subst h <;> simp [eventHandler]

/-- Witness for C2 at a concrete unconfigured secret and request. -/
theorem c2_unconfigured_500_witness :
    ((none : Option String) = none ∨ (none : Option String) = some "") ∧
      eventHandler none ⟨some "abc123"⟩ 7 ⟨[], []⟩ =
        (.error 500 "Secret must be set", ⟨[], []⟩) :=
  ⟨Or.inl rfl,
   c2_unconfigured_500 none ⟨some "abc123"⟩ 7 ⟨[], []⟩ (Or.inl rfl)⟩

/-- C3: when the configured shared secret is non-empty and the request
body's secret differs from it, the endpoint returns the 401 error
"Unauthorized" and the task work is never performed. -/
theorem c3_mismatch_401 (k : String) (req : TriggerRequest) (now : Nat)
    (st : EndpointState) (hk : k ≠ "") (hs : req.secret ≠ some k) :
    eventHandler (some k) req now st = (.error 401 "Unauthorized", st) := by
  simp [eventHandler, hk, hs]

/-- Witness for C3 at secret "abc123" and body secret "wrong". -/
theorem c3_mismatch_401_witness :
    ("abc123" ≠ "") ∧
      (some "wrong" ≠ some "abc123") ∧
      eventHandler (some "abc123") ⟨some "wrong"⟩ 7 ⟨[], []⟩ =
        (.error 401 "Unauthorized", ⟨[], []⟩) :=
  ⟨by decide, by decide,
   c3_mismatch_401 "abc123" ⟨some "wrong"⟩ 7 ⟨[], []⟩ (by decide) (by decide)⟩

/-- C4: when the request body's secret equals the configured non-empty
shared secret, the endpoint performs the task work exactly once — one
storage write and one log line — and returns `success: true`, the
`Date.now()` captured for this request as `timestamp`, and the
non-empty message "Task completed successfully". -/
theorem c4_accepted_success (k : String) (req : TriggerRequest) (now : Nat)
    (st : EndpointState) (hk : k ≠ "") (hs : req.secret = some k) :
    eventHandler (some k) req now st =
      (.ok { success := true, timestamp := now,
             message := "Task completed successfully" },
       { storage := Storage.setItem st.storage (toString now) now
         log := st.log ++ [taskWorkLine now] }) := by
  simp [eventHandler, hk, hs, endpointWork]

/-- Witness for C4: secret "abc123", matching request, time 5. -/
theorem c4_accepted_success_witness :
    ("abc123" ≠ "") ∧
      ((some "abc123" : Option String) = some "abc123") ∧
      eventHandler (some "abc123") ⟨some "abc123"⟩ 5 ⟨[], []⟩ =
        (.ok { success := true, timestamp := 5,
               message := "Task completed successfully" },
         ⟨Storage.setItem [] (toString 5) 5, [] ++ [taskWorkLine 5]⟩) :=
  ⟨by decide, rfl,
   c4_accepted_success "abc123" ⟨some "abc123"⟩ 5 ⟨[], []⟩ (by decide) rfl⟩

/-- C5 (code behaviour at the failing input): on an HTTP 200 response
whose body has `success: false`, the example-task.mts trigger logs
"Task completed" and records no failure, while the checking variant
logs the failure with the response as cause.  The spec designates the
checking behaviour as the correct one. -/
theorem c5_mts_ignores_success_flag :
    scheduledUnchecked "tick0" (.success ⟨false, 11, "boom"⟩) =
      .ok [.triggered "tick0", .completed ⟨false, 11, "boom"⟩] ∧
      scheduledChecked "tick0" (.success ⟨false, 11, "boom"⟩) =
        .ok [.triggered "tick0",
             .taskFailedErr (.taskFailed ⟨false, 11, "boom"⟩)] :=
  ⟨rfl, rfl⟩

/-- C6: for every outcome of the trigger's HTTP call — success body,
thrown HTTP error, or transport error — both trigger variants complete
normally (no uncaught exception), the checking variant logs every
failure with its cause, and the mts variant logs every thrown fetch
error with its cause. -/
theorem c6_trigger_completes_normally (nextRun : String)
    (fetch : FetchOutcome) :
    completesNormally (scheduledChecked nextRun fetch) = true ∧
      completesNormally (scheduledUnchecked nextRun fetch) = true ∧
      (∀ e, invocationFailure fetch = some e →
        LogEntry.taskFailedErr e ∈ triggerLogs (scheduledChecked nextRun fetch)) ∧
      (∀ s m, fetch = .httpError s m →
        LogEntry.taskFailedErr (.fetchHttp s m) ∈
          triggerLogs (scheduledUnchecked nextRun fetch)) ∧
      (∀ m, fetch = .transportError m →
        LogEntry.taskFailedErr (.transport m) ∈
          triggerLogs (scheduledUnchecked nextRun fetch)) := by
  cases fetch with
  | success resp =>
    cases hb : resp.success <;>
      simp [scheduledChecked, scheduledUnchecked, checkedTryBlock,
        uncheckedTryBlock, completesNormally, triggerLogs,
        invocationFailure, hb]
  | httpError s m =>
    simp [scheduledChecked, scheduledUnchecked, checkedTryBlock,
      uncheckedTryBlock, completesNormally, triggerLogs, invocationFailure]
  | transportError m =>
    simp [scheduledChecked, scheduledUnchecked, checkedTryBlock,
      uncheckedTryBlock, completesNormally, triggerLogs, invocationFailure]

/-- Witness for C6 at a thrown 401 fetch error. -/
theorem c6_trigger_completes_normally_witness :
    invocationFailure (.httpError 401 "Unauthorized") =
        some (.fetchHttp 401 "Unauthorized") ∧
      LogEntry.taskFailedErr (.fetchHttp 401 "Unauthorized") ∈
        triggerLogs (scheduledChecked "tick1" (.httpError 401 "Unauthorized")) :=
  ⟨rfl,
   (c6_trigger_completes_normally "tick1"
     (.httpError 401 "Unauthorized")).2.2.1 _ rfl⟩

/-- C7 counterexample: the value returned by the task registration's
`run` — `{ result: "Success" }` — is not Task-Result-shaped and is not
the value produced by the endpoint's inline task logic. -/
theorem c7_task_value_not_task_result :
    isTaskResultShaped (taskRun 0 ⟨[], []⟩).1 = false ∧
      (taskRun 0 ⟨[], []⟩).1 ≠ ((endpointWork 0 ⟨[], []⟩).1).toJObj := by
  refine ⟨rfl, fun h => ?_⟩
  have hlen := congrArg List.length h
  simp [taskRun, endpointWork, TaskResult.toJObj] at hlen

/-- C7 amended: for every clock value and prior state the task
registration's `run` and the endpoint's inline task logic perform the
identical work — same storage write, same log line — but the values
they return differ: the registration returns `{ result: "Success" }`,
which is not Task-Result-shaped, while the endpoint's value is. -/
theorem c7_same_work_different_value (now : Nat) (st : EndpointState) :
    (taskRun now st).2 = (endpointWork now st).2 ∧
      isTaskResultShaped (taskRun now st).1 = false ∧
      isTaskResultShaped ((endpointWork now st).1).toJObj = true ∧
      (taskRun now st).1 ≠ ((endpointWork now st).1).toJObj := by
  refine ⟨rfl, rfl, rfl, fun h => ?_⟩
  have hlen := congrArg List.length h
  simp [taskRun, endpointWork, TaskResult.toJObj] at hlen

/-- C8: two valid invocations at clock values `n1 ≠ n2` each perform
the task work — the final storage carries both writes, with no
deduplication — and the two returned results carry the two differing
timestamps. -/
theorem c8_not_idempotent (k : String) (req : TriggerRequest)
    (n1 n2 : Nat) (st : EndpointState) (hk : k ≠ "")
    (hs : req.secret = some k) (hne : n1 ≠ n2) :
    (eventHandler (some k) req n1 st).1 =
        .ok { success := true, timestamp := n1,
              message := "Task completed successfully" } ∧
      (eventHandler (some k) req n2 (eventHandler (some k) req n1 st).2).1 =
        .ok { success := true, timestamp := n2,
              message := "Task completed successfully" } ∧
      (eventHandler (some k) req n2 (eventHandler (some k) req n1 st).2).2.storage =
        Storage.setItem (Storage.setItem st.storage (toString n1) n1)
          (toString n2) n2 ∧
      ((eventHandler (some k) req n1 st).1).timestampOut ≠
        ((eventHandler (some k) req n2
          (eventHandler (some k) req n1 st).2).1).timestampOut := by
  have h1 := eventHandler_accepted_eq k req n1 st hk hs
  have h2 := eventHandler_accepted_eq k req n2
    ⟨Storage.setItem st.storage (toString n1) n1,
     st.log ++ [taskWorkLine n1]⟩ hk hs
  simp [h1, h2, EndpointResponse.timestampOut, hne]

/-- Witness for C8: secret "abc123", matching request, clock values 1
and 2. -/
theorem c8_not_idempotent_witness :
    ("abc123" ≠ "") ∧ ((some "abc123" : Option String) = some "abc123") ∧
      ((1 : Nat) ≠ 2) ∧
      (eventHandler (some "abc123") ⟨some "abc123"⟩ 2
        (eventHandler (some "abc123") ⟨some "abc123"⟩ 1 ⟨[], []⟩).2).2.storage =
        Storage.setItem (Storage.setItem [] (toString 1) 1) (toString 2) 2 :=
  ⟨by decide, rfl, by decide,
   (c8_not_idempotent "abc123" ⟨some "abc123"⟩ 1 2 ⟨[], []⟩
     (by decide) rfl (by decide)).2.2.1⟩

/-- C9: the endpoint's observable output — response, log and storage —
depends on the configured and presented secrets only through the
outcome class, so no output can carry either secret's value; moreover
the response text is one of three fixed strings and the log either is
untouched or gains only the fixed execution line. -/
theorem c9_no_secret_leak (cfg1 : Option String) (req1 : TriggerRequest)
    (cfg2 : Option String) (req2 : TriggerRequest) (now : Nat)
    (st : EndpointState)
    (h : outcomeClass cfg1 req1 = outcomeClass cfg2 req2) :
    eventHandler cfg1 req1 now st = eventHandler cfg2 req2 now st ∧
      (eventHandler cfg1 req1 now st).1.text ∈
        (["Secret must be set", "Unauthorized",
          "Task completed successfully"] : List String) ∧
      ((eventHandler cfg1 req1 now st).2.log = st.log ∨
        (eventHandler cfg1 req1 now st).2.log =
          st.log ++ [taskWorkLine now]) := by
  rw [eventHandler_classifies cfg1 req1 now st,
    eventHandler_classifies cfg2 req2 now st, h]
  cases outcomeClass cfg2 req2 <;>
    simp [responseOfClass, EndpointResponse.text, endpointWork]

/-- Witness for C9: two unauthorized runs with unrelated secrets give
identical observable output. -/
theorem c9_no_secret_leak_witness :
    outcomeClass (some "alpha") ⟨some "beta"⟩ =
        outcomeClass (some "gamma") ⟨none⟩ ∧
      eventHandler (some "alpha") ⟨some "beta"⟩ 3 ⟨[], []⟩ =
        eventHandler (some "gamma") ⟨none⟩ 3 ⟨[], []⟩ :=
  ⟨by decide,
   (c9_no_secret_leak (some "alpha") ⟨some "beta"⟩ (some "gamma") ⟨none⟩ 3
     ⟨[], []⟩ (by decide)).1⟩

/-- C10: on an accepted request the single captured clock value `now`
is used consistently: the storage key is its string form, the stored
value is it, the log line carries it, and the returned `timestamp`
equals it. -/
theorem c10_single_timestamp (k : String) (req : TriggerRequest)
    (now : Nat) (st : EndpointState) (hk : k ≠ "")
    (hs : req.secret = some k) :
    (eventHandler (some k) req now st).2.storage =
        Storage.setItem st.storage (toString now) now ∧
      (eventHandler (some k) req now st).2.log =
        st.log ++ ["Running example record task: " ++ toString now] ∧
      ((eventHandler (some k) req now st).1).timestampOut = some now := by
  rw [eventHandler_accepted_eq k req now st hk hs]
  simp [taskWorkLine, EndpointResponse.timestampOut]

/-- Witness for C10 at secret "abc123" and time 9. -/
theorem c10_single_timestamp_witness :
    ("abc123" ≠ "") ∧ ((some "abc123" : Option String) = some "abc123") ∧
      (eventHandler (some "abc123") ⟨some "abc123"⟩ 9 ⟨[], []⟩).2.storage =
        Storage.setItem [] (toString 9) 9 :=
  ⟨by decide, rfl,
   (c10_single_timestamp "abc123" ⟨some "abc123"⟩ 9 ⟨[], []⟩
     (by decide) rfl).1⟩
